import Mathlib

/-
  Verification of the timing-coupled APU/PPU core of the Corrosion NES
  emulator, as a shallow embedding in Lean 4.

  The embedding translates the Rust sources:
    src/apu/mod.rs       (APU frame sequencer, channels, dispatcher)
    src/ppu/mod.rs       (PPU renderer, registers, old memory bus)
    src/ppu/ppu_memory.rs (newer PPU memory bus with VRAM mirroring table)
  Machine integers are modelled as Nat with explicit masks / `% 2^w`
  where wrap-around matters; Rust array indexing that can panic is
  modelled with Option.  Components that the repository uses but whose
  source files are not part of the snapshot (apu/components.rs,
  apu/buffer.rs, cart.rs, the mapper mirroring tables, the audio and
  screen sinks) are modelled from the specification document and are
  marked `Modelled from the spec:` in their doc comments.
-/

namespace Corrosion

/-- Pointwise update of a function-backed byte store (models one array
store `table[i] = v`). -/
def upd {α : Type} (f : ℕ → α) (i : ℕ) (v : α) : ℕ → α :=
  fun j => if j = i then v else f j

/-! ## Interrupt results surfaced to the CPU -/

/-- IrqInterrupt from cpu.rs (declared there; modelled from the spec:
"Interrupt results surfaced to CPU: IrqInterrupt ∈ \x7bNone, IRQ\x7d"). -/
inductive IrqInterrupt : Type
  | None : IrqInterrupt
  | IRQ : IrqInterrupt
deriving DecidableEq, Repr

/-- Modelled from the spec: the CPU-side combination of two interrupt
results; IRQ dominates. -/
def IrqInterrupt.or : IrqInterrupt → IrqInterrupt → IrqInterrupt
  | IrqInterrupt.IRQ, _ => IrqInterrupt.IRQ
  | IrqInterrupt.None, x => x

/-! ## APU channel components

apu/components.rs is not part of the source snapshot; Envelope, Length,
Timer and Waveform below are modelled from the spec (§3 "APU channel
primitives").  None of the claims observes their inner behaviour beyond
`Length.active`. -/

/-- Modelled from the spec: the standard NTSC length-counter load table,
indexed by bits 7..3 of the length register write.  The spec references
a "length-table lookup" without listing the values; the standard table
is used here.  No claim in this development depends on its contents. -/
def LENGTH_TABLE : ℕ → ℕ := fun i =>
  [10, 254, 20, 2, 40, 4, 80, 6, 160, 8, 60, 10, 14, 12, 26, 14,
   12, 16, 24, 18, 48, 20, 96, 22, 192, 24, 72, 26, 16, 28, 32, 30].getD i 0

/-- Modelled from the spec: Envelope = start flag, divider, decay
counter, loop flag, constant-volume flag, volume/period. -/
structure Envelope : Type where
  start_flag : Bool
  divider : ℕ
  decay : ℕ
  loop_flag : Bool
  constant_volume : Bool
  volume_period : ℕ
deriving DecidableEq, Repr

def Envelope.new : Envelope :=
  { start_flag := false, divider := 0, decay := 0, loop_flag := false,
    constant_volume := false, volume_period := 0 }

/-- Modelled from the spec: an envelope register write (bit 5 loop,
bit 4 constant volume, bits 3..0 volume/period). -/
def Envelope.write (e : Envelope) (val : ℕ) : Envelope :=
  { e with loop_flag := val.testBit 5, constant_volume := val.testBit 4,
           volume_period := val &&& 0x0F }

/-- Modelled from the spec: `tick()` advances per quarter-frame. -/
def Envelope.tick (e : Envelope) : Envelope :=
  if e.start_flag then
    { e with start_flag := false, decay := 15, divider := e.volume_period }
  else if e.divider = 0 then
    { e with divider := e.volume_period,
             decay := if e.decay ≠ 0 then e.decay - 1
                      else if e.loop_flag then 15 else 0 }
  else
    { e with divider := e.divider - 1 }

/-- Modelled from the spec: `volume()` returns the current output level. -/
def Envelope.volume (e : Envelope) : ℕ :=
  if e.constant_volume then e.volume_period else e.decay

/-- Modelled from the spec: Length counter = a halt flag, enable bit and
counter value; `halt_bit` records which bit of the control byte carries
the halt flag for this channel (5 for pulse/noise, 7 for triangle, the
argument of `Length::new`). -/
structure Length : Type where
  halt_bit : ℕ
  halt : Bool
  enabled : Bool
  counter : ℕ
deriving DecidableEq, Repr

def Length.new (bit : ℕ) : Length :=
  { halt_bit := bit, halt := false, enabled := false, counter := 0 }

def Length.write_halt (l : Length) (val : ℕ) : Length :=
  { l with halt := val.testBit l.halt_bit }

/-- Modelled from the spec: load the counter from bits 7..3 of the write
through the length table. -/
def Length.write_counter (l : Length) (val : ℕ) : Length :=
  { l with counter := LENGTH_TABLE ((val >>> 3) % 32) }

/-- Modelled from the spec: the $4015 enable bit; disabling a channel
silences it (counter cleared). -/
def Length.set_enable (l : Length) (b : Bool) : Length :=
  { l with enabled := b, counter := if b then l.counter else 0 }

/-- Modelled from the spec: decremented per half-frame unless halted. -/
def Length.tick (l : Length) : Length :=
  if l.halt ∨ l.counter = 0 then l else { l with counter := l.counter - 1 }

/-- Modelled from the spec: audible iff counter > 0 and enabled. -/
def Length.audible (l : Length) : Bool :=
  l.enabled && l.counter != 0

/-- The status-bit view of the length counter used by $4015 reads. -/
def Length.active (l : Length) : ℕ :=
  if l.audible then 1 else 0

/-- Modelled from the spec: Timer = period (11-bit), countdown, and a
multiplier (2 for pulse, 1 for triangle) converting CPU clocks to timer
ticks. -/
structure Timer : Type where
  multiplier : ℕ
  period_val : ℕ
  countdown : ℕ
deriving DecidableEq, Repr

def Timer.new (m : ℕ) : Timer :=
  { multiplier := m, period_val := 0, countdown := 0 }

def Timer.period (t : Timer) : ℕ := t.period_val

def Timer.write_low (t : Timer) (val : ℕ) : Timer :=
  { t with period_val := (t.period_val &&& 0x0700) ||| (val &&& 0xFF) }

def Timer.write_high (t : Timer) (val : ℕ) : Timer :=
  { t with period_val := (t.period_val &&& 0x00FF) ||| ((val &&& 0x07) <<< 8) }

/-- Modelled from the spec: the sweep unit shifts the timer period by a
signed amount (i16 arithmetic in the source); the result is truncated
back to the 11-bit period. -/
def Timer.add_period_shift (t : Timer) (s : ℤ) : Timer :=
  { t with period_val := (((t.period_val : ℤ) + s).toNat) &&& 0x07FF }

/-- Modelled from the spec: CPU cycles per timer tick. -/
def Timer.wavelen (t : Timer) : ℕ :=
  (t.period_val + 1) * t.multiplier

inductive TimerClock : Type
  | Clock : TimerClock
  | NoClock : TimerClock
deriving DecidableEq, Repr

/-- Modelled from the spec: `run` advances the cursor to the next timer
expiration strictly inside `[cur, to)` and yields `Clock`, or to `to`
with no clock. -/
def Timer.run (t : Timer) (cur to_cyc : ℕ) : Timer × ℕ × TimerClock :=
  if cur + t.countdown < to_cyc then
    ({ t with countdown := t.wavelen }, cur + t.countdown, TimerClock.Clock)
  else
    ({ t with countdown := t.countdown - (to_cyc - cur) }, to_cyc, TimerClock.NoClock)

/-! ## APU (src/apu/mod.rs) -/

/-- NTSC_TICK_LENGTH_TABLE from apu/mod.rs:
`[[7459, 7456, 7458, 7458, 7458, 0], [1, 7458, 7456, 7458, 7458, 7452]]`. -/
def NTSC_TICK_LENGTH_TABLE (mode tk : ℕ) : ℕ :=
  match mode, tk with
  | 0, 0 => 7459
  | 0, 1 => 7456
  | 0, 2 => 7458
  | 0, 3 => 7458
  | 0, 4 => 7458
  | 0, 5 => 0
  | 1, 0 => 1
  | 1, 1 => 7458
  | 1, 2 => 7456
  | 1, 3 => 7458
  | 1, 4 => 7458
  | 1, 5 => 7452
  | _, _ => 0

/-- PULSE_DUTY_CYCLES from apu/mod.rs (delta sequences, values in
\x7b-1, 0, 1\x7d). -/
def PULSE_DUTY_CYCLES (duty idx : ℕ) : ℤ :=
  match duty, idx with
  | 0, 1 => 1
  | 0, 2 => -1
  | 1, 1 => 1
  | 1, 3 => -1
  | 2, 1 => 1
  | 2, 5 => -1
  | 3, 1 => -1
  | 3, 3 => 1
  | _, _ => 0

/-- The `Frame` bitflags register of apu/mod.rs, kept as its raw bits
(defined flags: MODE = 0x80, SUPPRESS_IRQ = 0x40). -/
def Frame.from_bits_truncate (v : ℕ) : ℕ := v &&& 0xC0

/-- `Frame::mode`: 1 when the MODE bit (0x80) is set, else 0. -/
def Frame.mode (f : ℕ) : ℕ := if f.testBit 7 then 1 else 0

/-- `frame.contains(SUPPRESS_IRQ)`. -/
def Frame.suppress_irq (f : ℕ) : Bool := f.testBit 6

/-- Sweep from apu/mod.rs. -/
structure Sweep : Type where
  enable : Bool
  period : ℕ
  negate : Bool
  shift : ℕ
  is_pulse2 : Bool
  divider : ℕ
  reload : Bool
deriving DecidableEq, Repr

def Sweep.new (is_pulse2 : Bool) : Sweep :=
  { enable := false, period := 0, negate := false, shift := 0,
    is_pulse2 := is_pulse2, divider := 0, reload := false }

def Sweep.write (s : Sweep) (val : ℕ) : Sweep :=
  { s with enable := (val &&& 0x80) ≠ 0, period := (val &&& 0x70) >>> 4,
           negate := (val &&& 0x08) ≠ 0, shift := val &&& 0x07,
           reload := true }

/-- `Sweep::period_shift` (i16 arithmetic in the source). -/
def Sweep.period_shift (s : Sweep) (t : Timer) : ℤ :=
  let sh : ℤ := (t.period : ℤ) >>> s.shift
  if s.negate then (if s.is_pulse2 then -sh + 1 else -sh) else sh

/-- `Sweep::tick`, returning the updated sweep and timer. -/
def Sweep.tick (s : Sweep) (t : Timer) : Sweep × Timer :=
  if ¬ s.enable then (s, t)
  else
    let s1 := { s with divider := s.divider - 1 }
    let st :=
      if s1.divider = 0 then
        ({ s1 with divider := s1.period }, t.add_period_shift (s1.period_shift t))
      else (s1, t)
    if st.1.reload then ({ st.1 with divider := st.1.period, reload := false }, st.2)
    else st

/-- `Sweep::audible` is `true` in the source (its TODO body). -/
def Sweep.audible (_ : Sweep) : Bool := true

/-- Pulse channel from apu/mod.rs.  The Waveform delta writer (shared
sample buffer in the source, via Rc<RefCell>) is modelled from the spec
as a per-channel list of (cycle, amplitude) events. -/
structure Pulse : Type where
  duty : ℕ
  duty_index : ℕ
  envelope : Envelope
  sweep : Sweep
  timer : Timer
  length : Length
  waveform : List (ℕ × ℕ)
deriving DecidableEq, Repr

def Pulse.new (is_pulse2 : Bool) : Pulse :=
  { duty := 0, duty_index := 0, envelope := Envelope.new,
    sweep := Sweep.new is_pulse2, timer := Timer.new 2,
    length := Length.new 5, waveform := [] }

/-- `Pulse::length_tick`: tick the length counter, then the sweep. -/
def Pulse.length_tick (p : Pulse) : Pulse :=
  let l := p.length.tick
  let st := p.sweep.tick p.timer
  { p with length := l, sweep := st.1, timer := st.2 }

def Pulse.envelope_tick (p : Pulse) : Pulse :=
  { p with envelope := p.envelope.tick }

/-- The `while let TimerClock::Clock = self.timer.run(..)` loop of
`Pulse::play`, with fuel `to_cyc - from_cyc` (each Clock advances the
cursor by at least one cycle). -/
def Pulse.play_loop : ℕ → Pulse → ℕ → ℕ → ℕ → Pulse
  | 0, p, _, _, _ => p
  | fuel + 1, p, vol, cur, to_cyc =>
    match p.timer.run cur to_cyc with
    | (t, cur2, TimerClock.Clock) =>
      let p1 := { p with timer := t, duty_index := (p.duty_index + 1) % 8 }
      let p2 :=
        match PULSE_DUTY_CYCLES p1.duty p1.duty_index with
        | -1 => { p1 with waveform := (cur2, 0) :: p1.waveform }
        | 1 => { p1 with waveform := (cur2, vol) :: p1.waveform }
        | _ => p1
      Pulse.play_loop fuel p2 vol cur2 to_cyc
    | (t, _, TimerClock.NoClock) => { p with timer := t }

/-- `Pulse::play`. -/
def Pulse.play (p : Pulse) (from_cyc to_cyc : ℕ) : Pulse :=
  if ¬ p.sweep.audible ∨ ¬ p.length.audible then
    { p with waveform := (from_cyc, 0) :: p.waveform }
  else
    Pulse.play_loop (to_cyc - from_cyc) p p.envelope.volume from_cyc to_cyc

/-- `Writable for Pulse`. -/
def Pulse.write (p : Pulse) (idx val : ℕ) : Pulse :=
  match idx % 4 with
  | 0 => { p with duty := val >>> 6, length := p.length.write_halt val,
                  envelope := p.envelope.write val }
  | 1 => { p with sweep := p.sweep.write val }
  | 2 => { p with timer := p.timer.write_low val }
  | 3 => { p with length := p.length.write_counter val,
                  timer := p.timer.write_high val }
  | _ => p

/-- Triangle channel from apu/mod.rs (play is a TODO stub there). -/
structure Triangle : Type where
  counter : ℕ
  timer : ℕ
  length : Length
deriving DecidableEq, Repr

def Triangle.new : Triangle :=
  { counter := 0, timer := 0, length := Length.new 7 }

def Triangle.length_tick (t : Triangle) : Triangle :=
  { t with length := t.length.tick }

def Triangle.play (t : Triangle) (_ _ : ℕ) : Triangle := t

def Triangle.write (t : Triangle) (idx val : ℕ) : Triangle :=
  match idx % 4 with
  | 0 => { t with length := t.length.write_halt val }
  | 3 => { t with length := t.length.write_counter val }
  | _ => t

/-- Noise channel from apu/mod.rs (play is a TODO stub there). -/
structure Noise : Type where
  envelope : Envelope
  mode : ℕ
  length : Length
deriving DecidableEq, Repr

def Noise.new : Noise :=
  { envelope := Envelope.new, mode := 0, length := Length.new 5 }

def Noise.length_tick (n : Noise) : Noise :=
  { n with length := n.length.tick }

def Noise.envelope_tick (n : Noise) : Noise :=
  { n with envelope := n.envelope.tick }

def Noise.play (n : Noise) (_ _ : ℕ) : Noise := n

def Noise.write (n : Noise) (idx val : ℕ) : Noise :=
  match idx % 4 with
  | 0 => { n with length := n.length.write_halt val,
                  envelope := n.envelope.write val }
  | 3 => { n with length := n.length.write_counter val }
  | _ => n

/-- DMC channel from apu/mod.rs (all behaviour is a TODO stub there). -/
structure DMC : Type where
  freq : ℕ
  direct : ℕ
  sample_addr : ℕ
  sample_length : ℕ
deriving DecidableEq, Repr

def DMC.new : DMC :=
  { freq := 0, direct := 0, sample_addr := 0, sample_length := 0 }

def DMC.play (d : DMC) (_ _ : ℕ) : DMC := d

def DMC.write (d : DMC) (_ _ : ℕ) : DMC := d

/-- Jitter from apu/mod.rs: the delayed $4017 write. -/
inductive Jitter : Type
  | Delay : ℕ → ℕ → Jitter
  | None : Jitter
deriving DecidableEq, Repr

/-- The APU of apu/mod.rs.  `clocks` stands for the sample buffer's
`clocks_needed()` (apu/buffer.rs is not in the source snapshot;
modelled from the spec as a fixed positive cycle count per transfer,
taken as a construction parameter). -/
structure APU : Type where
  pulse1 : Pulse
  pulse2 : Pulse
  triangle : Triangle
  noise : Noise
  dmc : DMC
  frame : ℕ
  global_cyc : ℕ
  tick : ℕ
  next_tick_cyc : ℕ
  next_transfer_cyc : ℕ
  last_frame_cyc : ℕ
  irq_requested : Bool
  jitter : Jitter
  clocks : ℕ
deriving DecidableEq, Repr

/-- `APU::new`. -/
def APU.new (clocks_needed : ℕ) : APU :=
  { pulse1 := Pulse.new false, pulse2 := Pulse.new true,
    triangle := Triangle.new, noise := Noise.new, dmc := DMC.new,
    frame := 0, global_cyc := 0, tick := 0,
    next_tick_cyc := NTSC_TICK_LENGTH_TABLE 0 0,
    next_transfer_cyc := clocks_needed, last_frame_cyc := 0,
    irq_requested := false, jitter := Jitter.None,
    clocks := clocks_needed }

def APU.envelope_tick (a : APU) : APU :=
  { a with pulse1 := a.pulse1.envelope_tick, pulse2 := a.pulse2.envelope_tick,
           noise := a.noise.envelope_tick }

def APU.length_tick (a : APU) : APU :=
  { a with pulse1 := a.pulse1.length_tick, pulse2 := a.pulse2.length_tick,
           triangle := a.triangle.length_tick, noise := a.noise.length_tick }

/-- `APU::raise_irq`. -/
def APU.raise_irq (a : APU) : APU × IrqInterrupt :=
  if ¬ Frame.suppress_irq a.frame then
    ({ a with irq_requested := true }, IrqInterrupt.IRQ)
  else (a, IrqInterrupt.None)

/-- `APU::tick` (the 240Hz frame-sequencer tick; named `do_tick` here
because `tick` is taken by the structure field of the same name). -/
def APU.do_tick (a : APU) : APU × IrqInterrupt :=
  let t := a.tick + 1
  let mode := Frame.mode a.frame
  let a1 := { a with tick := t,
                     next_tick_cyc := a.global_cyc + NTSC_TICK_LENGTH_TABLE mode t }
  if mode = 0 then
    if t = 1 then (a1.envelope_tick, IrqInterrupt.None)
    else if t = 2 then (a1.envelope_tick.length_tick, IrqInterrupt.None)
    else if t = 3 then (a1.envelope_tick, IrqInterrupt.None)
    else if t = 4 then
      ({ a1 with tick := 0 }).envelope_tick.length_tick.raise_irq
    else ({ a1 with tick := 0 }, IrqInterrupt.None)
  else
    if t = 1 then (a1.envelope_tick.length_tick, IrqInterrupt.None)
    else if t = 2 then (a1.envelope_tick, IrqInterrupt.None)
    else if t = 3 then (a1.envelope_tick.length_tick, IrqInterrupt.None)
    else if t = 4 then (a1.envelope_tick, IrqInterrupt.None)
    else ({ a1 with tick := 0 }, IrqInterrupt.None)

/-- `APU::play`: forwards the interval to every channel, expressed in
cycles since the last buffer flush, truncated to u32. -/
def APU.play (a : APU) (from_cyc to_cyc : ℕ) : APU :=
  let f := (from_cyc - a.last_frame_cyc) % 2 ^ 32
  let t := (to_cyc - a.last_frame_cyc) % 2 ^ 32
  { a with pulse1 := a.pulse1.play f t, pulse2 := a.pulse2.play f t,
           triangle := a.triangle.play f t, noise := a.noise.play f t,
           dmc := a.dmc.play f t }

/-- `APU::transfer`: flush the sample buffer to the audio device and
schedule the next transfer `clocks_needed()` cycles ahead. -/
def APU.transfer (a : APU) : APU :=
  { a with last_frame_cyc := a.global_cyc,
           pulse1 := { a.pulse1 with waveform := [] },
           pulse2 := { a.pulse2 with waveform := [] },
           next_transfer_cyc := a.global_cyc + a.clocks }

/-- `APU::set_4017`. -/
def APU.set_4017 (a : APU) (val : ℕ) : APU :=
  let f := Frame.from_bits_truncate val
  let a1 := { a with frame := f }
  let a2 := if Frame.suppress_irq f then { a1 with irq_requested := false } else a1
  { a2 with tick := 0,
            next_tick_cyc := a2.global_cyc + NTSC_TICK_LENGTH_TABLE (Frame.mode f) 0 }

/-- The body of `APU::run_to`'s while loop, with explicit fuel.  Each
iteration advances `global_cyc` to the nearest of the requested cycle,
the next sequencer tick, the next buffer transfer and the pending $4017
commit, so `cpu_cycle - global_cyc` fuel is always sufficient. -/
def APU.run_loop : ℕ → APU → ℕ → IrqInterrupt → APU × IrqInterrupt
  | 0, a, _, acc => (a, acc)
  | fuel + 1, a, cpu_cycle, acc =>
    if a.global_cyc < cpu_cycle then
      let next1 := min cpu_cycle a.next_tick_cyc
      let next2 := min next1 a.next_transfer_cyc
      let next_step :=
        match a.jitter with
        | Jitter.Delay time _ => min next2 time
        | Jitter.None => next2
      let a1 := a.play a.global_cyc next_step
      let a2 := { a1 with global_cyc := next_step }
      let a3 :=
        match a2.jitter with
        | Jitter.Delay time val =>
          if a2.global_cyc = time then { a2.set_4017 val with jitter := Jitter.None }
          else a2
        | Jitter.None => a2
      let r :=
        if a3.global_cyc = a3.next_tick_cyc then a3.do_tick
        else (a3, IrqInterrupt.None)
      let acc2 := acc.or r.2
      let a4 := if r.1.global_cyc = r.1.next_transfer_cyc then r.1.transfer else r.1
      APU.run_loop fuel a4 cpu_cycle acc2
    else (a, acc)

/-- `APU::run_to`. -/
def APU.run_to (a : APU) (cpu_cycle : ℕ) : APU × IrqInterrupt :=
  APU.run_loop (cpu_cycle - a.global_cyc) a cpu_cycle IrqInterrupt.None

/-- `APU::requested_run_cycle`. -/
def APU.requested_run_cycle (a : APU) : ℕ := a.next_tick_cyc

/-- `APU::read_status`.  The source computes `self.run_to(cycle - 1)`
with an unchecked u64 subtraction; `cycle = 0` underflows it (a panic
in a checked build), which is modelled by `none`. -/
def APU.read_status (a : APU) (cycle : ℕ) : Option (IrqInterrupt × ℕ × APU) :=
  if cycle = 0 then none
  else
    let r1 := a.run_to (cycle - 1)
    let a1 := r1.1
    let status :=
      (a1.pulse1.length.active <<< 0) |||
      (a1.pulse2.length.active <<< 1) |||
      (a1.triangle.length.active <<< 2) |||
      (a1.noise.length.active <<< 3) |||
      (if a1.irq_requested then 1 <<< 6 else 0)
    let a2 := { a1 with irq_requested := false }
    let r2 := a2.run_to cycle
    some (r1.2.or r2.2, status, r2.1)

/-- `MemSegment::write for APU` (register dispatch on `idx % 0x20`). -/
def APU.write (a : APU) (idx val : ℕ) : APU :=
  let x := idx % 0x20
  if x ≤ 0x03 then { a with pulse1 := a.pulse1.write x val }
  else if x ≤ 0x07 then { a with pulse2 := a.pulse2.write x val }
  else if x ≤ 0x0B then { a with triangle := a.triangle.write x val }
  else if x ≤ 0x0F then { a with noise := a.noise.write x val }
  else if x ≤ 0x13 then { a with dmc := a.dmc.write x val }
  else if x = 0x15 then
    { a with noise := { a.noise with length := a.noise.length.set_enable (val.testBit 3) },
             triangle := { a.triangle with length := a.triangle.length.set_enable (val.testBit 2) },
             pulse2 := { a.pulse2 with length := a.pulse2.length.set_enable (val.testBit 1) },
             pulse1 := { a.pulse1 with length := a.pulse1.length.set_enable (val.testBit 0) } }
  else if x = 0x17 then
    if a.global_cyc % 2 = 0 then a.set_4017 val
    else { a with jitter := Jitter.Delay (a.global_cyc + 1) val }
  else a

/-! ## Cartridge interface

cart.rs and the mapper mirroring tables are not part of the source
snapshot.  Modelled from the spec (§6 "Cartridge interface"):
`chr_read`, `chr_write`, and `get_mirroring_table() -> &[u16; 4]`. -/

/-- Modelled from the spec: the cartridge, as CHR byte store plus the
4-entry nametable mirroring table. -/
structure Cart : Type where
  chr : ℕ → ℕ
  mirror : ℕ → ℕ

def Cart.chr_read (c : Cart) (idx : ℕ) : ℕ := c.chr idx

def Cart.chr_write (c : Cart) (idx v : ℕ) : Cart :=
  { c with chr := upd c.chr idx v }

def Cart.get_mirroring_table (c : Cart) : ℕ → ℕ := c.mirror

/-- Modelled from the spec: the four-screen mirroring table maps each
of the four logical nametables to its own 0x400-byte region
(offsets 0x000, 0x400, 0x800, 0xC00). -/
def fourScreenTable : ℕ → ℕ := fun n => 0x400 * n

/-! ## PPU (src/ppu/mod.rs) -/

/-- Color from ppu/mod.rs: an opaque 6-bit value. -/
structure Color : Type where
  bits : ℕ
deriving DecidableEq, Repr

def Color.from_bits_truncate (v : ℕ) : Color := ⟨v &&& 0x3F⟩

/-- The PPU memory bus of ppu/mod.rs (2 KiB VRAM array, 32-entry
palette).  `write` is Option-valued: the source indexes
`self.palette[x]` with `x = idx - 0x3F00`, which panics out of bounds
for `x ≥ 0x20`; addresses above 0x3FFF hit `invalid_address!`. -/
structure PPUMemory : Type where
  cart : Cart
  vram : ℕ → ℕ
  palette : ℕ → Color

def PPUMemory.new (cart : Cart) : PPUMemory :=
  { cart := cart, vram := fun _ => 0,
    palette := fun _ => Color.from_bits_truncate 0 }

/-- `MemSegment::read for PPUMemory` (ppu/mod.rs): reads mask the
palette index with 0x1F and resolve the four mirror slots. -/
def PPUMemory.read (m : PPUMemory) (idx : ℕ) : Option ℕ :=
  if idx ≤ 0x1FFF then some (m.cart.chr_read idx)
  else if idx ≤ 0x3EFF then some (m.vram (idx % 0x800))
  else if idx ≤ 0x3FFF then
    some (match idx &&& 0x001F with
          | 0x10 => m.palette 0x00
          | 0x14 => m.palette 0x04
          | 0x18 => m.palette 0x08
          | 0x1C => m.palette 0x0C
          | x => m.palette x).bits
  else none

/-- `MemSegment::write for PPUMemory` (ppu/mod.rs): the palette arm
matches on `idx - 0x3F00` (not masked!), so the catch-all arm indexes
`palette[x]` out of bounds for `x ≥ 0x20` — modelled as `none`. -/
def PPUMemory.write (m : PPUMemory) (idx val : ℕ) : Option PPUMemory :=
  if idx ≤ 0x1FFF then some { m with cart := m.cart.chr_write idx val }
  else if idx ≤ 0x3EFF then
    some { m with vram := upd m.vram ((idx - 0x2000) % 0x800) val }
  else if idx ≤ 0x3FFF then
    let v := Color.from_bits_truncate val
    let x := idx - 0x3F00
    if x = 0x10 then some { m with palette := upd m.palette 0x00 v }
    else if x = 0x14 then some { m with palette := upd m.palette 0x04 v }
    else if x = 0x18 then some { m with palette := upd m.palette 0x08 v }
    else if x = 0x1C then some { m with palette := upd m.palette 0x0C v }
    else if x < 0x20 then some { m with palette := upd m.palette x v }
    else none
  else none

/-- AddrByte from ppu/mod.rs: the single $2005/$2006 write toggle. -/
inductive AddrByte : Type
  | High : AddrByte
  | Low : AddrByte
deriving DecidableEq, Repr

/-- PPUCtrl from ppu/mod.rs. -/
structure PPUCtrl : Type where
  bits : ℕ
deriving DecidableEq, Repr

def PPUCtrl.empty : PPUCtrl := ⟨0⟩

def PPUCtrl.new (bits : ℕ) : PPUCtrl := ⟨bits⟩

def PPUCtrl.nametable_addr (c : PPUCtrl) : ℕ :=
  (c.bits &&& 0x03) * 0x0400 ||| 0x2000

def PPUCtrl.vram_addr_step (c : PPUCtrl) : ℕ :=
  if c.bits &&& 0x04 ≠ 0 then 32 else 1

def PPUCtrl.background_table (c : PPUCtrl) : ℕ :=
  if c.bits &&& 0x10 ≠ 0 then 0x1000 else 0x0000

def PPUCtrl.generate_vblank_nmi (c : PPUCtrl) : Bool :=
  c.bits &&& 0x80 ≠ 0

/-- PPUReg from ppu/mod.rs.  `ppumask` and `ppustat` are kept as their
raw bitflag bytes (all eight PPUMask bits are defined flags; the
PPUStat flags are the top three bits, VBLANK = 0x80). -/
structure PPUReg : Type where
  ppuctrl : PPUCtrl
  ppumask : ℕ
  ppustat : ℕ
  oamaddr : ℕ
  ppuscroll : ℕ
  ppuaddr : ℕ
  dyn_latch : ℕ
  address_latch : AddrByte
deriving DecidableEq, Repr

/-- `PPUReg::scroll_x` — note the source computes a boolean comparison
`(ppuscroll & 0xFF00) > 8` cast to u8, faithfully mirrored. -/
def PPUReg.scroll_x (r : PPUReg) : ℕ :=
  if 8 < r.ppuscroll &&& 0xFF00 then 1 else 0

/-- `PPUReg::scroll_y` — likewise `(ppuscroll & 0x00FF) > 0` as u8. -/
def PPUReg.scroll_y (r : PPUReg) : ℕ :=
  if 0 < r.ppuscroll &&& 0x00FF then 1 else 0

/-- OAMAttr from ppu/mod.rs: defined flags 0x80, 0x40, 0x20, 0x02,
0x01, so `from_bits_truncate` masks with 0b1110_0011. -/
def OAMAttr.from_bits_truncate (v : ℕ) : ℕ := v &&& 0xE3

/-- OAMEntry from ppu/mod.rs. -/
structure OAMEntry : Type where
  y : ℕ
  tile : ℕ
  attr : ℕ
  x : ℕ
deriving DecidableEq, Repr

def OAMEntry.zero : OAMEntry := { y := 0, tile := 0, attr := 0, x := 0 }

/-- `MemSegment::read for OAMEntry` (the `_` arm panics "Math is
broken!" in the source but `idx % 4 < 4` always). -/
def OAMEntry.read (e : OAMEntry) (idx : ℕ) : ℕ :=
  match idx % 4 with
  | 0 => e.y
  | 1 => e.tile
  | 2 => e.attr
  | 3 => e.x
  | _ => 0

def OAMEntry.write (e : OAMEntry) (idx val : ℕ) : OAMEntry :=
  match idx % 4 with
  | 0 => { e with y := val }
  | 1 => { e with tile := val }
  | 2 => { e with attr := OAMAttr.from_bits_truncate val }
  | 3 => { e with x := val }
  | _ => e

/-- StepResult from ppu/mod.rs. -/
inductive StepResult : Type
  | NMI : StepResult
  | Continue : StepResult
deriving DecidableEq, Repr

/-- The PPU of ppu/mod.rs.  The screen sink (`Box<Screen>`) is
modelled from the spec as a counter of `draw` calls; the framebuffer
is the 256x240 Color array, function-backed. -/
structure PPU : Type where
  reg : PPUReg
  oam : ℕ → OAMEntry
  ppu_mem : PPUMemory
  screen_draws : ℕ
  screen_buffer : ℕ → Color
  global_cyc : ℕ
  cyc : ℕ
  sl : ℤ
  frame : ℕ

/-- `PPU::new` — note the initial scanline is 241 and the initial
address latch is High. -/
def PPU.new (cart : Cart) : PPU :=
  { reg := { ppuctrl := PPUCtrl.empty, ppumask := 0, ppustat := 0,
             oamaddr := 0, ppuscroll := 0, ppuaddr := 0, dyn_latch := 0,
             address_latch := AddrByte.High },
    oam := fun _ => OAMEntry.zero,
    ppu_mem := PPUMemory.new cart,
    screen_draws := 0,
    screen_buffer := fun _ => Color.from_bits_truncate 0,
    global_cyc := 0, cyc := 0, sl := 241, frame := 0 }

/-- `PPU::incr_ppuaddr` (u16 wrapping add of the CTRL-selected step). -/
def PPU.incr_ppuaddr (p : PPU) : PPU :=
  { p with reg := { p.reg with
      ppuaddr := (p.reg.ppuaddr + p.reg.ppuctrl.vram_addr_step) % 0x10000 } }

/-- `PPU::get_nametable_addr`. -/
def PPU.get_nametable_addr (p : PPU) (px_x px_y : ℕ) : ℕ :=
  p.reg.ppuctrl.nametable_addr + (px_y / 8) * 32 + px_x / 8

/-- `PPU::get_tile_addr`. -/
def get_tile_addr (tile_id plane fine_y_scroll tile_table : ℕ) : ℕ :=
  fine_y_scroll ||| plane ||| (tile_id <<< 4) ||| tile_table

/-- `PPU::read_tile_pattern`. -/
def PPU.read_tile_pattern (p : PPU) (tile_id fine_y_scroll tile_table : ℕ) :
    Option (ℕ × ℕ) := do
  let lo ← p.ppu_mem.read (get_tile_addr tile_id 0 fine_y_scroll tile_table)
  let hi ← p.ppu_mem.read (get_tile_addr tile_id 8 fine_y_scroll tile_table)
  pure (lo, hi)

/-- `PPU::get_color_in_pattern`. -/
def get_color_in_pattern (lo hi fine_x : ℕ) : ℕ :=
  ((lo >>> (0x07 - fine_x)) &&& 0x01) ||| (((hi >>> (0x07 - fine_x)) &&& 0x01) <<< 1)

/-- `PPU::get_color_id`. -/
def PPU.get_color_id (p : PPU) (x y : ℕ) : Option ℕ := do
  let tile_idx ← p.ppu_mem.read (p.get_nametable_addr x y)
  let pat ← p.read_tile_pattern tile_idx (y &&& 0x07) p.reg.ppuctrl.background_table
  pure (get_color_in_pattern pat.1 pat.2 (x &&& 0x07))

/-- `PPU::get_attribute_addr`. -/
def PPU.get_attribute_addr (p : PPU) (x y : ℕ) : ℕ :=
  p.reg.ppuctrl.nametable_addr + 0x03C0 + (y / 32) * 8 + x / 32

/-- `PPU::get_palette_from_attribute`. -/
def get_palette_from_attribute (attr x y : ℕ) : ℕ :=
  let a1 := if y &&& 0x10 ≠ 0 then attr >>> 4 else attr
  let a2 := if x &&& 0x10 ≠ 0 then a1 >>> 2 else a1
  a2 &&& 0x03

/-- `PPU::get_palette_id`. -/
def PPU.get_palette_id (p : PPU) (x y : ℕ) : Option ℕ := do
  let attribute_byte ← p.ppu_mem.read (p.get_attribute_addr x y)
  pure (get_palette_from_attribute attribute_byte x y)

/-- `PPU::read_palette`. -/
def PPU.read_palette (p : PPU) (palette_id color_id : ℕ) : Option Color := do
  let bits ← p.ppu_mem.read (0x3F00 + ((palette_id <<< 2) ||| color_id))
  pure (Color.from_bits_truncate bits)

/-- `PPU::get_background_pixel` (= `get_pixel`). -/
def PPU.get_background_pixel (p : PPU) (screen_x screen_y : ℕ) : Option Color := do
  let x := screen_x + p.reg.scroll_x
  let y := screen_y + p.reg.scroll_y
  let color_id ← p.get_color_id x y
  let palette_id ← p.get_palette_id x y
  p.read_palette palette_id color_id

/-- `PPU::visible_scanline`: store the pixel for dots 0..255. -/
def PPU.visible_scanline (p : PPU) (pixel scanline : ℕ) : Option PPU :=
  if 256 ≤ pixel then some p
  else do
    let c ← p.get_background_pixel pixel scanline
    pure { p with screen_buffer := upd p.screen_buffer (scanline * 256 + pixel) c }

/-- `PPU::start_vblank`: always draws the framebuffer; sets VBLANK and
reports the NMI decision only after the first frame. -/
def PPU.start_vblank (p : PPU) : PPU × Bool :=
  let p1 := { p with screen_draws := p.screen_draws + 1 }
  if 0 < p1.frame then
    ({ p1 with reg := { p1.reg with ppustat := p1.reg.ppustat ||| 0x80 } },
     p1.reg.ppuctrl.generate_vblank_nmi)
  else (p1, false)

/-- `PPU::tick_cycle`: advance one dot; 341 dots per scanline,
scanlines -1..260, frame counter bumped at the wrap to -1. -/
def PPU.tick_cycle (p : PPU) : PPU :=
  let p1 := { p with global_cyc := p.global_cyc + 1, cyc := p.cyc + 1 }
  if p1.cyc = 341 then
    let p2 := { p1 with cyc := 0, sl := p1.sl + 1 }
    if p2.sl = 261 then { p2 with sl := -1, frame := p2.frame + 1 } else p2
  else p1

/-- `PPU::run_cycle`: per-dot dispatch on (cyc, sl). -/
def PPU.run_cycle (p : PPU) : Option (PPU × Bool) :=
  if p.sl = -1 then some (p, false)
  else if 0 ≤ p.sl ∧ p.sl ≤ 239 then
    match p.visible_scanline p.cyc p.sl.toNat with
    | none => none
    | some q => some (q, false)
  else if p.sl = 240 then some (p, false)
  else if p.cyc = 1 ∧ p.sl = 241 then some p.start_vblank
  else some (p, false)

/-- The body of `PPU::run_to`'s while loop with explicit fuel; each
iteration advances `global_cyc` by exactly one dot, so
`3 * cpu_cycle - global_cyc` fuel is exact. -/
def PPU.run_loop : ℕ → PPU → ℕ → Bool → Option (PPU × Bool)
  | 0, p, _, acc => some (p, acc)
  | fuel + 1, p, target, acc =>
    if p.global_cyc < target then
      let p1 := p.tick_cycle
      match p1.run_cycle with
      | none => none
      | some r => PPU.run_loop fuel r.1 target (acc || r.2)
    else some (p, acc)

/-- `PPU::run_to`: advance until `global_cyc >= 3 * cpu_cycle`; NMI if
any vblank start in the interval raised one. -/
def PPU.run_to (p : PPU) (cpu_cycle : ℕ) : Option (PPU × StepResult) :=
  (PPU.run_loop (3 * cpu_cycle - p.global_cyc) p (3 * cpu_cycle) false).map
    (fun r => (r.1, if r.2 then StepResult.NMI else StepResult.Continue))

/-- `write_addr_byte` from ppu/mod.rs: one shared two-byte write latch;
High stores the high byte and flips to Low, Low stores the low byte and
flips back to High. -/
def write_addr_byte (latch : AddrByte) (target val : ℕ) : AddrByte × ℕ :=
  match latch with
  | AddrByte.High => (AddrByte.Low, (target &&& 0x00FF) ||| (val <<< 8))
  | AddrByte.Low => (AddrByte.High, (target &&& 0xFF00) ||| val)

/-- `MemSegment::read for PPU` (MMIO on `idx % 8`). -/
def PPU.read (p : PPU) (idx : ℕ) : Option (ℕ × PPU) :=
  let x := idx % 8
  if x = 0 then some (p.reg.dyn_latch, p)
  else if x = 1 then some (p.reg.dyn_latch, p)
  else if x = 2 then
    let p1 := { p with reg := { p.reg with address_latch := AddrByte.High } }
    let res := p1.reg.ppustat ||| (p1.reg.dyn_latch &&& 0x1F)
    some (res, { p1 with reg := { p1.reg with ppustat := p1.reg.ppustat &&& 0x7F } })
  else if x = 3 then some (p.reg.dyn_latch, p)
  else if x = 4 then
    let res := (p.oam (p.reg.oamaddr / 4)).read p.reg.oamaddr
    some (res, { p with reg := { p.reg with oamaddr := (p.reg.oamaddr + 1) % 256 } })
  else if x = 5 then some (p.reg.dyn_latch, p)
  else if x = 6 then some (p.reg.dyn_latch, p)
  else
    match p.ppu_mem.read p.reg.ppuaddr with
    | none => none
    | some v => some (v, p.incr_ppuaddr)

/-- `MemSegment::write for PPU` (MMIO on `idx % 8`; every write fills
`dyn_latch` first). -/
def PPU.write (p : PPU) (idx val : ℕ) : Option PPU :=
  let p := { p with reg := { p.reg with dyn_latch := val } }
  let x := idx % 8
  if x = 0 then some { p with reg := { p.reg with ppuctrl := PPUCtrl.new val } }
  else if x = 1 then some { p with reg := { p.reg with ppumask := val &&& 0xFF } }
  else if x = 2 then some p
  else if x = 3 then some { p with reg := { p.reg with oamaddr := val } }
  else if x = 4 then
    let e := (p.oam (p.reg.oamaddr / 4)).write p.reg.oamaddr val
    some { p with oam := upd p.oam (p.reg.oamaddr / 4) e,
                  reg := { p.reg with oamaddr := (p.reg.oamaddr + 1) % 256 } }
  else if x = 5 then
    let r := write_addr_byte p.reg.address_latch p.reg.ppuscroll val
    some { p with reg := { p.reg with address_latch := r.1, ppuscroll := r.2 } }
  else if x = 6 then
    let r := write_addr_byte p.reg.address_latch p.reg.ppuaddr val
    some { p with reg := { p.reg with address_latch := r.1, ppuaddr := r.2 } }
  else
    match p.ppu_mem.write p.reg.ppuaddr val with
    | none => none
    | some m => some ({ p with ppu_mem := m }).incr_ppuaddr

/-! ## The clock/status core of the PPU

The NMI decision of `PPU::run_to` depends only on the dot clock, the
frame counter, the status register and the CTRL register; in a run
whose rendering reads all-zero memory, the rest of the state only
accumulates framebuffer writes.  `Core` is that projection, used to
evaluate the long S2 run without carrying the framebuffer. -/

structure Core : Type where
  global_cyc : ℕ
  cyc : ℕ
  sl : ℤ
  frame : ℕ
  stat : ℕ
  draws : ℕ
  nmi_enabled : Bool
deriving DecidableEq, Repr

/-- The projection of a PPU onto its clock/status core. -/
def PPU.core (p : PPU) : Core :=
  { global_cyc := p.global_cyc, cyc := p.cyc, sl := p.sl, frame := p.frame,
    stat := p.reg.ppustat, draws := p.screen_draws,
    nmi_enabled := p.reg.ppuctrl.generate_vblank_nmi }

/-- `PPU.tick_cycle` in core terms. -/
def Core.tick_cycle (c : Core) : Core :=
  let c1 := { c with global_cyc := c.global_cyc + 1, cyc := c.cyc + 1 }
  if c1.cyc = 341 then
    let c2 := { c1 with cyc := 0, sl := c1.sl + 1 }
    if c2.sl = 261 then { c2 with sl := -1, frame := c2.frame + 1 } else c2
  else c1

/-- `PPU.run_cycle` in core terms (the visible/pre-render/idle arms do
not touch the core). -/
def Core.run_cycle (c : Core) : Core × Bool :=
  if c.sl = -1 then (c, false)
  else if 0 ≤ c.sl ∧ c.sl ≤ 239 then (c, false)
  else if c.sl = 240 then (c, false)
  else if c.cyc = 1 ∧ c.sl = 241 then
    let c1 := { c with draws := c.draws + 1 }
    if 0 < c1.frame then
      ({ c1 with stat := c1.stat ||| 0x80 }, c1.nmi_enabled)
    else (c1, false)
  else (c, false)

/-- `PPU.run_loop` in core terms. -/
def Core.run_loop : ℕ → Core → ℕ → Bool → Core × Bool
  | 0, c, _, acc => (c, acc)
  | fuel + 1, c, target, acc =>
    if c.global_cyc < target then
      let r := c.tick_cycle.run_cycle
      Core.run_loop fuel r.1 target (acc || r.2)
    else (c, acc)

/-- The rendering context of scenario S2: all PPU memory reads see
zero bytes, CTRL is 0x80 (NMI enabled, nametable 0, pattern table 0)
and the scroll register is zero.  Preserved by running the PPU. -/
def Inert (p : PPU) : Prop :=
  (∀ i, p.ppu_mem.vram i = 0) ∧
  (∀ i, p.ppu_mem.palette i = Color.from_bits_truncate 0) ∧
  (∀ i, p.ppu_mem.cart.chr i = 0) ∧
  p.reg.ppuctrl = PPUCtrl.new 0x80 ∧
  p.reg.ppuscroll = 0

/-- Closed form for the S2 core run: the state after `n` dots from the
construction state (cyc 0, scanline 241, frame 0) with NMI enabled.
A frame is 262 * 341 = 89342 dots; the construction state sits at
in-frame position 242 * 341 = 82522; the vblank-start dot (cyc 1,
scanline 241) is position 82523. -/
def c2g (n : ℕ) : Core :=
  let q := (82522 + n) % 89342
  { global_cyc := n,
    cyc := q % 341,
    sl := (q / 341 : ℤ) - 1,
    frame := (82522 + n) / 89342,
    stat := if 89343 ≤ n then 0x80 else 0,
    draws := if n = 0 then 0 else (n - 1) / 89342 + 1,
    nmi_enabled := true }

/-- Whether any dot among the first `n` of the S2 run returned an NMI:
the first vblank start with frame > 0 is dot 89343. -/
def c2hit (n : ℕ) : Bool := decide (89343 ≤ n)

/-- Whether the m-th dot of the S2 run itself returns an NMI: a vblank
start (in-frame position 82523, i.e. m ≡ 1 mod 89342) with frame > 0
(m ≥ 89343). -/
def c2b (m : ℕ) : Bool := decide (m % 89342 = 1 ∧ 89343 ≤ m)

/-- The S2 core state after n dots and one further `tick_cycle`, before
the dot's `run_cycle` dispatch: the clock already shows dot n + 1, the
status/draw fields still show dot n. -/
def c2t (n : ℕ) : Core :=
  let q := (82522 + (n + 1)) % 89342
  { global_cyc := n + 1,
    cyc := q % 341,
    sl := (q / 341 : ℤ) - 1,
    frame := (82522 + (n + 1)) / 89342,
    stat := if 89343 ≤ n then 0x80 else 0,
    draws := if n = 0 then 0 else (n - 1) / 89342 + 1,
    nmi_enabled := true }

/-! ## PPU memory bus of src/ppu/ppu_memory.rs -/

namespace PpuMemoryRs

/-- The newer PPU memory bus (ppu/ppu_memory.rs): a 0x0F00-byte VRAM
store indexed through the cartridge mirroring table, and the 32-entry
palette. -/
structure PPUMemory : Type where
  cart : Cart
  vram : ℕ → ℕ
  palette : ℕ → Color

def PPUMemory.new (cart : Cart) : PPUMemory :=
  { cart := cart, vram := fun _ => 0,
    palette := fun _ => Color.from_bits_truncate 0 }

/-- `PPUMemory::translate_vram_address`: nametable number and offset of
`idx & 0x0FFF`, sent through the cartridge table, reduced modulo
`vram.len() = 0x0F00`. -/
def PPUMemory.translate_vram_address (m : PPUMemory) (idx : ℕ) : ℕ :=
  let idx2 := idx &&& 0x0FFF
  let nametable_num := idx2 / 0x0400
  let idx_in_nametable := idx2 % 0x0400
  (m.cart.get_mirroring_table nametable_num + idx_in_nametable) % 0x0F00

/-- `PPUMemory::read_bypass_palette`. -/
def PPUMemory.read_bypass_palette (m : PPUMemory) (idx : ℕ) : ℕ :=
  m.vram (m.translate_vram_address idx)

/-- `MemSegment::read for PPUMemory` (ppu/ppu_memory.rs): the palette
arm masks the address with 0x1F. -/
def PPUMemory.read (m : PPUMemory) (idx : ℕ) : Option ℕ :=
  if idx ≤ 0x1FFF then some (m.cart.chr_read idx)
  else if idx ≤ 0x3EFF then some (m.read_bypass_palette idx)
  else if idx ≤ 0x3FFF then some ((m.palette (idx &&& 0x001F)).bits)
  else none

/-- The mirror-partner step of the ppu_memory.rs palette write: the
`match idx` arms that write the partner of a decoded mirror slot
(both directions), before the slot itself is written. -/
def palette_mirror_write (pal : ℕ → Color) (x : ℕ) (v : Color) : ℕ → Color :=
  if x = 0x10 then upd pal 0x00 v
  else if x = 0x00 then upd pal 0x10 v
  else if x = 0x14 then upd pal 0x04 v
  else if x = 0x04 then upd pal 0x14 v
  else if x = 0x18 then upd pal 0x08 v
  else if x = 0x08 then upd pal 0x18 v
  else if x = 0x1C then upd pal 0x0C v
  else if x = 0x0C then upd pal 0x1C v
  else pal

/-- `MemSegment::write for PPUMemory` (ppu/ppu_memory.rs): the palette
arm masks with 0x1F, writes the mirror partner of the decoded slot
(both directions), then the slot itself. -/
def PPUMemory.write (m : PPUMemory) (idx val : ℕ) : Option PPUMemory :=
  if idx ≤ 0x1FFF then some { m with cart := m.cart.chr_write idx val }
  else if idx ≤ 0x3EFF then
    some { m with vram := upd m.vram (m.translate_vram_address idx) val }
  else if idx ≤ 0x3FFF then
    let v := Color.from_bits_truncate val
    let x := idx &&& 0x001F
    some { m with palette := upd (palette_mirror_write m.palette x v) x v }
  else none

end PpuMemoryRs

/-- The VRAM translation exactly as the spec words it, for the
refinement comparison of claim C8: "physical byte = table[nt] + off
modulo VRAM size", with the VRAM size the spec asserts (2 KiB, or
4 KiB for four-screen). -/
def spec_translate (table : ℕ → ℕ) (vram_size a : ℕ) : ℕ :=
  (table ((a &&& 0x0FFF) / 0x0400) + (a &&& 0x0FFF) % 0x0400) % vram_size

/-- A concrete all-zero cartridge used by the closed scenarios. -/
def cart0 : Cart := { chr := fun _ => 0, mirror := fun _ => 0 }

/-- A concrete four-screen cartridge (mirroring table modelled from
the spec, see `fourScreenTable`). -/
def cart4 : Cart := { chr := fun _ => 0, mirror := fourScreenTable }

/-- A fresh PPU with oamaddr pointed at the attribute byte of OAM
entry 0 (oamaddr = 2), used by the C9 witness. -/
def c9p : PPU :=
  { PPU.new cart0 with reg := { (PPU.new cart0).reg with oamaddr := 2 } }

/-- The S2 starting state: a fresh PPU after `write(0x2000, 0x80)`. -/
def c2p0 : PPU :=
  { PPU.new cart0 with
      reg := { (PPU.new cart0).reg with
                 ppuctrl := PPUCtrl.new 0x80
                 dyn_latch := 0x80 } }

/-- The S2 state at the vblank-start dot of frame 1, used by the C2
witness. -/
def c2vb : PPU := { c2p0 with cyc := 1, sl := 241, frame := 1 }

/-! ## Theorems -/

/-- Claim C1 (counterexample): from a newly constructed APU (frame
register 0x00), `run_to(29830)` does *not* return IRQ and leaves
`irq_requested` false — the fourth mode-0 tick falls at cycle
7459 + 7456 + 7458 + 7458 = 29831, one cycle after the claim's target.
(29830 is strictly before the tick, so the loop stops short of it.) -/
theorem C1_counterexample :
    ((APU.new 4096).run_to 29830).2 = IrqInterrupt.None ∧
    ((APU.new 4096).run_to 29830).1.irq_requested = false ∧
    ((APU.new 4096).run_to 29830).1.tick = 3 :=
  ⟨rfl, rfl, rfl⟩

set_option maxRecDepth 40000

/-- Claim C1 (amended): with the frame register 0x00, from a newly
constructed APU, `run_to(29831)` returns IRQ; the sequencer ticks fall
after intervals 7459, 7456, 7458, 7458 (at cycles 7459, 14915, 22373,
29831), the IRQ is raised on the fourth tick, `irq_requested` becomes
true, and the IRQ recurs exactly once per frame (the next one only at
cycle 59661).  Shown for two different sample-buffer transfer periods
(4096 and 97 cycles) since apu/buffer.rs is not in the snapshot. -/
theorem C1_amended :
    ((APU.new 4096).run_to 29831).2 = IrqInterrupt.IRQ ∧
    ((APU.new 4096).run_to 29831).1.irq_requested = true ∧
    ((APU.new 4096).run_to 7459).1.tick = 1 ∧
    ((APU.new 4096).run_to 14915).1.tick = 2 ∧
    ((APU.new 4096).run_to 22373).1.tick = 3 ∧
    ((APU.new 4096).run_to 29831).1.tick = 0 ∧
    ((APU.new 4096).run_to 29831).1.next_tick_cyc = 37289 ∧
    (((APU.new 4096).run_to 29831).1.run_to 59660).2 = IrqInterrupt.None ∧
    ((((APU.new 4096).run_to 29831).1.run_to 59660).1.run_to 59661).2 = IrqInterrupt.IRQ ∧
    ((APU.new 97).run_to 29830).2 = IrqInterrupt.None ∧
    ((APU.new 97).run_to 29831).2 = IrqInterrupt.IRQ :=
  ⟨rfl, rfl, rfl, rfl, rfl, rfl, rfl, rfl, rfl, rfl, rfl⟩

/-- Claim C10: `APU::read_status(cycle)` starts with
`run_to(cycle - 1)` on an unchecked u64 subtraction, so `cycle ≥ 1` is
a precondition: every call with `cycle ≥ 1` is well-defined, and the
call with `cycle = 0` underflows (modelled as `none`). -/
theorem C10_theorem (a : APU) (cycle : ℕ) :
    (1 ≤ cycle → (a.read_status cycle).isSome = true) ∧
    a.read_status 0 = none := by
  constructor
  · intro h
    have hne : cycle ≠ 0 := by omega
    simp [APU.read_status, hne]
  · simp [APU.read_status]

/-- Witness for C10 at `cycle = 1` on a fresh APU. -/
theorem C10_witness :
    (1 : ℕ) ≤ 1 ∧ ((APU.new 4096).read_status 1).isSome = true :=
  ⟨le_refl 1, (C10_theorem (APU.new 4096) 1).1 (le_refl 1)⟩

/-- Claim C7 (counterexample): writing the byte 0x40 to the mirror
address 0x3F10 and reading 0x3F00 back yields 0, not the written 0x40
— the palette stores Colors masked to 6 bits, so "yields the written
value" fails for bytes ≥ 0x40. -/
theorem C7_counterexample :
    (((PpuMemoryRs.PPUMemory.new cart0).write 0x3F10 0x40).bind
        (fun m => m.read 0x3F00)) = some 0 ∧
    (0x40 : ℕ) ≠ 0 :=
  ⟨rfl, by decide⟩

/-- Claim C7 (amended): for every pair (mirror, target) in
\x7b(0x3F10,0x3F00),(0x3F14,0x3F04),(0x3F18,0x3F08),(0x3F1C,0x3F0C)\x7d
and every byte value v, writing v to either address of the pair through
the PPU memory bus and then reading the other address yields v & 0x3F
(the written value masked to 6 bits by the Color constructor).  Holds
for both the ppu_memory.rs bus and the ppu/mod.rs bus. -/
theorem C7_amended (m : PpuMemoryRs.PPUMemory) (mo : PPUMemory) (i : Fin 4) (v : ℕ) :
    ((m.write (0x3F10 + 4 * i.val) v).bind (fun x => x.read (0x3F00 + 4 * i.val))) =
      some (v &&& 0x3F) ∧
    ((m.write (0x3F00 + 4 * i.val) v).bind (fun x => x.read (0x3F10 + 4 * i.val))) =
      some (v &&& 0x3F) ∧
    ((mo.write (0x3F10 + 4 * i.val) v).bind (fun x => x.read (0x3F00 + 4 * i.val))) =
      some (v &&& 0x3F) ∧
    ((mo.write (0x3F00 + 4 * i.val) v).bind (fun x => x.read (0x3F10 + 4 * i.val))) =
      some (v &&& 0x3F) := by
  fin_cases i <;> exact ⟨rfl, rfl, rfl, rfl⟩

/-- Claim C8 (counterexample): the backing VRAM store is 0x0F00 bytes,
not the 2 KiB / 4 KiB the claim asserts.  With the four-screen table,
the code translates 0x2FFF to physical byte 0xFF while the claim's
4-KiB four-screen store puts it at 0xFFF; behaviourally, a write to
0x2FFF is read back at 0x20FF although the claim's translation keeps
those two addresses distinct. -/
theorem C8_counterexample :
    (PpuMemoryRs.PPUMemory.new cart4).translate_vram_address 0x2FFF = 0xFF ∧
    spec_translate fourScreenTable 0x1000 0x2FFF = 0xFFF ∧
    (0xFF : ℕ) ≠ 0xFFF ∧
    (((PpuMemoryRs.PPUMemory.new cart4).write 0x2FFF 7).bind
        (fun m => m.read 0x20FF)) = some 7 ∧
    spec_translate fourScreenTable 0x1000 0x20FF ≠
      spec_translate fourScreenTable 0x1000 0x2FFF :=
  ⟨rfl, rfl, by decide, rfl, by decide⟩

/-- Claim C8 (amended): for every request address a in [0x2000,0x3F00),
a ppu_memory.rs bus read or write accesses the physical VRAM byte at
index (table[(a & 0x0FFF) / 0x400] + ((a & 0x0FFF) % 0x400)) modulo the
VRAM size, where the backing store is 0x0F00 (3840) bytes. -/
theorem C8_amended (m : PpuMemoryRs.PPUMemory) (a v : ℕ)
    (h1 : 0x2000 ≤ a) (h2 : a ≤ 0x3EFF) :
    m.read a =
      some (m.vram ((m.cart.mirror ((a &&& 0x0FFF) / 0x0400) +
                     (a &&& 0x0FFF) % 0x0400) % 0x0F00)) ∧
    (m.write a v).map
        (fun m2 => m2.vram ((m.cart.mirror ((a &&& 0x0FFF) / 0x0400) +
                             (a &&& 0x0FFF) % 0x0400) % 0x0F00)) = some v := by
  have hn : ¬ a ≤ 0x1FFF := by omega
  constructor
  · simp [PpuMemoryRs.PPUMemory.read, PpuMemoryRs.PPUMemory.read_bypass_palette,
          PpuMemoryRs.PPUMemory.translate_vram_address, Cart.get_mirroring_table,
          hn, h2]
  · simp [PpuMemoryRs.PPUMemory.write, PpuMemoryRs.PPUMemory.translate_vram_address,
          Cart.get_mirroring_table, upd, hn, h2]

/-- Witness for C8 at the four-screen bus and address 0x2FFF. -/
theorem C8_witness :
    (0x2000 : ℕ) ≤ 0x2FFF ∧ (0x2FFF : ℕ) ≤ 0x3EFF ∧
    ((PpuMemoryRs.PPUMemory.new cart4).read 0x2FFF =
      some ((PpuMemoryRs.PPUMemory.new cart4).vram
        (((PpuMemoryRs.PPUMemory.new cart4).cart.mirror ((0x2FFF &&& 0x0FFF) / 0x0400) +
          (0x2FFF &&& 0x0FFF) % 0x0400) % 0x0F00)) ∧
    ((PpuMemoryRs.PPUMemory.new cart4).write 0x2FFF 7).map
        (fun m2 => m2.vram
          (((PpuMemoryRs.PPUMemory.new cart4).cart.mirror ((0x2FFF &&& 0x0FFF) / 0x0400) +
            (0x2FFF &&& 0x0FFF) % 0x0400) % 0x0F00)) = some 7) :=
  ⟨by decide, by decide,
   C8_amended (PpuMemoryRs.PPUMemory.new cart4) 0x2FFF 7 (by decide) (by decide)⟩

/-- Claim C3: on the ppu_memory.rs bus, every palette write decodes the
5-bit index (addr & 0x1F) before touching the 32-entry table, never
indexes out of bounds, and leaves every index ≥ 0x20 untouched; but
the ppu/mod.rs bus that the claim also covers computes `addr - 0x3F00`
unmasked, so a $2007 write with ppuaddr = 0x3F20 indexes the 32-entry
palette at 0x20 and panics (modelled as `none`) — the claim states the
intended behaviour, the ppu/mod.rs write is the slip (its own read
path masks with 0x1F, and ppu_memory.rs fixes the write). -/
theorem C3_theorem :
    (∀ (m : PpuMemoryRs.PPUMemory) (a v : ℕ), 0x3F00 ≤ a → a ≤ 0x3FFF →
      ∃ m2, m.write a v = some m2 ∧ ∀ j, 0x20 ≤ j → m2.palette j = m.palette j) ∧
    ((((PPU.new cart0).write 0x2006 0x3F).bind (fun p => p.write 0x2006 0x20)).bind
        (fun p => p.write 0x2007 0)) = none ∧
    (PPUMemory.new cart0).write 0x3F20 0 = none := by
  refine ⟨?_, rfl, rfl⟩
  intro m a v h1 h2
  have hn1 : ¬ a ≤ 0x1FFF := by omega
  have hn2 : ¬ a ≤ 0x3EFF := by omega
  have hx : a &&& 0x001F ≤ 0x1F := Nat.and_le_right
  refine ⟨{ m with palette := (upd (PpuMemoryRs.palette_mirror_write m.palette (a &&& 0x001F) (Color.from_bits_truncate v)) (a &&& 0x001F) (Color.from_bits_truncate v)) }, ?_, ?_⟩
  · simp [PpuMemoryRs.PPUMemory.write, hn1, hn2, h2]
  · intro j hj
    have hj1 : j ≠ a &&& 0x001F := by omega
    simp only [upd, if_neg hj1, PpuMemoryRs.palette_mirror_write]
    split_ifs <;> simp only [upd] <;> first | rfl | rw [if_neg (by omega)]

/-- Witness for C3: the masked write is total even at address 0x3F20
(the very address on which the unmasked ppu/mod.rs write faults). -/
theorem C3_witness :
    (0x3F00 : ℕ) ≤ 0x3F20 ∧ (0x3F20 : ℕ) ≤ 0x3FFF ∧
    ∃ m2, (PpuMemoryRs.PPUMemory.new cart0).write 0x3F20 0 = some m2 ∧
      ∀ j, 0x20 ≤ j → m2.palette j = (PpuMemoryRs.PPUMemory.new cart0).palette j :=
  ⟨by decide, by decide,
   C3_theorem.1 (PpuMemoryRs.PPUMemory.new cart0) 0x3F20 0 (by decide) (by decide)⟩

/-- Byte-lattice fact behind the two-write registers: after the high
byte v is stored into a 16-bit register, masking with 0xFF00 recovers
exactly the stored high byte. -/
theorem and_ff00_or_shift (t v : ℕ) (hv : v < 256) :
    ((t &&& 0xFF) ||| (v <<< 8)) &&& 0xFF00 = v <<< 8 := by
  have h255 : (0xFF : ℕ) = 2 ^ 8 - 1 := rfl
  have hff00 : (0xFF00 : ℕ) = (2 ^ 8 - 1) <<< 8 := rfl
  apply Nat.eq_of_testBit_eq
  intro i
  rw [hff00, h255]
  simp only [Nat.testBit_and, Nat.testBit_or, Nat.testBit_shiftLeft,
    Nat.testBit_two_pow_sub_one]
  rcases Nat.lt_or_ge i 8 with h8 | h8
  · have hn : ¬ (8 ≤ i) := by omega
    simp [hn]
  · rcases Nat.lt_or_ge i 16 with h16 | h16
    · have ha : 8 ≤ i := h8
      have hb : i - 8 < 8 := by omega
      have hc : ¬ (i < 8) := by omega
      simp [ha, hb, hc]
    · have hpow : (256 : ℕ) ≤ 2 ^ (i - 8) := by
        calc (256 : ℕ) = 2 ^ 8 := rfl
        _ ≤ 2 ^ (i - 8) := Nat.pow_le_pow_right (by norm_num) (by omega)
      have hv8 : v.testBit (i - 8) = false :=
        Nat.testBit_lt_two_pow (lt_of_lt_of_le hv hpow)
      simp [hv8]
      intro _ h1 h2
      omega

/-- Claim C6: one single write latch is shared by $2005 and $2006,
initially High; each write stores the byte into the high half of the
target register when the latch is High and into the low half when Low,
and flips the latch.  Hence two consecutive writes to either register
fill high byte then low byte, and a write to the other register after
one write continues against the same latch (hitting the low half). -/
theorem C6_theorem (p : PPU) (v1 v2 : ℕ)
    (hl : p.reg.address_latch = AddrByte.High) (hv1 : v1 < 256) (_hv2 : v2 < 256) :
    (((p.write 0x2005 v1).bind (fun q => q.write 0x2005 v2)).map
        (fun q => (q.reg.ppuscroll, q.reg.address_latch)) =
      some ((v1 <<< 8) ||| v2, AddrByte.High)) ∧
    (((p.write 0x2006 v1).bind (fun q => q.write 0x2006 v2)).map
        (fun q => (q.reg.ppuaddr, q.reg.address_latch)) =
      some ((v1 <<< 8) ||| v2, AddrByte.High)) ∧
    (((p.write 0x2005 v1).bind (fun q => q.write 0x2006 v2)).map
        (fun q => (q.reg.ppuscroll, q.reg.ppuaddr, q.reg.address_latch)) =
      some ((p.reg.ppuscroll &&& 0x00FF) ||| (v1 <<< 8),
            (p.reg.ppuaddr &&& 0xFF00) ||| v2, AddrByte.High)) ∧
    (((p.write 0x2006 v1).bind (fun q => q.write 0x2005 v2)).map
        (fun q => (q.reg.ppuaddr, q.reg.ppuscroll, q.reg.address_latch)) =
      some ((p.reg.ppuaddr &&& 0x00FF) ||| (v1 <<< 8),
            (p.reg.ppuscroll &&& 0xFF00) ||| v2, AddrByte.High)) ∧
    (∀ c : Cart, (PPU.new c).reg.address_latch = AddrByte.High) := by
  refine ⟨?_, ?_, ?_, ?_, fun _ => rfl⟩ <;>
    simp [PPU.write, write_addr_byte, hl, and_ff00_or_shift _ _ hv1]

/-- Witness for C6 on a fresh PPU with bytes 0xDE, 0xAD. -/
theorem C6_witness :
    (PPU.new cart0).reg.address_latch = AddrByte.High ∧ (0xDE : ℕ) < 256 ∧
    (0xAD : ℕ) < 256 ∧
    ((((PPU.new cart0).write 0x2005 0xDE).bind (fun q => q.write 0x2005 0xAD)).map
        (fun q => (q.reg.ppuscroll, q.reg.address_latch)) =
      some ((0xDE <<< 8) ||| 0xAD, AddrByte.High)) :=
  ⟨rfl, by decide, by decide,
   (C6_theorem (PPU.new cart0) 0xDE 0xAD rfl (by decide) (by decide)).1⟩

/-- Claim C9: for every byte v written to $2004 while oamaddr points at
the attribute byte of an OAM entry (oamaddr mod 4 = 2), reading the
same OAM byte back (after restoring oamaddr through $2003) returns
v & 0b1110_0011 — the undefined attribute bits 2..4 were discarded on
write by the OAMAttr from_bits_truncate constructor — which differs
from v whenever v has any of bits 2..4 set. -/
theorem C9_theorem (p : PPU) (v : ℕ) (_hv : v < 256)
    (h2 : p.reg.oamaddr % 4 = 2) (_h256 : p.reg.oamaddr < 256) :
    ((((p.write 0x2004 v).bind (fun q => q.write 0x2003 p.reg.oamaddr)).bind
        (fun q => q.read 0x2004)).map (fun r => r.1) = some (v &&& 0xE3)) ∧
    (v &&& 0x1C ≠ 0 → v &&& 0xE3 ≠ v) := by
  constructor
  · simp [PPU.write, PPU.read, OAMEntry.write, OAMEntry.read,
          OAMAttr.from_bits_truncate, upd, h2]
  · intro hne heq
    apply hne
    calc v &&& 0x1C = (v &&& 0xE3) &&& 0x1C := by rw [heq]
    _ = v &&& (0xE3 &&& 0x1C) := Nat.and_assoc v 0xE3 0x1C
    _ = v &&& 0 := by rw [show (0xE3 &&& 0x1C : ℕ) = 0 from rfl]
    _ = 0 := Nat.and_zero v

/-- Witness for C9: a fresh PPU with oamaddr set to 2 and v = 0xFF. -/
theorem C9_witness :
    (0xFF : ℕ) < 256 ∧ c9p.reg.oamaddr % 4 = 2 ∧ c9p.reg.oamaddr < 256 ∧
    ((((c9p.write 0x2004 0xFF).bind (fun q => q.write 0x2003 c9p.reg.oamaddr)).bind
        (fun q => q.read 0x2004)).map (fun r => r.1) = some (0xFF &&& 0xE3)) :=
  ⟨by decide, rfl, by decide,
   (C9_theorem c9p 0xFF (by decide) rfl (by decide)).1⟩

/-- Claim C4: a $4017 write of v on an even `global_cyc` commits
immediately (Frame overwritten with the truncated bits, IRQ cleared iff
the suppress bit of v is set, tick reset to 0, next_tick_cyc
rescheduled from the new mode); on an odd `global_cyc` the commit is
delayed one cycle — the write only records the jitter, the apparent
Frame (and tick schedule) stay the old ones, and the commit happens
when `run_to` reaches `global_cyc = delay_target` (shown on the S5
scenario: write at cycle 101, commit observed at 102). -/
theorem C4_theorem (a : APU) (v : ℕ) (_hv : v < 256) :
    (a.global_cyc % 2 = 0 →
      ((a.write 0x4017 v).frame = Frame.from_bits_truncate v ∧
       (a.write 0x4017 v).tick = 0 ∧
       (a.write 0x4017 v).next_tick_cyc =
         a.global_cyc + NTSC_TICK_LENGTH_TABLE (Frame.mode (Frame.from_bits_truncate v)) 0 ∧
       (a.write 0x4017 v).irq_requested =
         (if Frame.suppress_irq (Frame.from_bits_truncate v) then false
          else a.irq_requested) ∧
       (a.write 0x4017 v).jitter = a.jitter)) ∧
    (a.global_cyc % 2 = 1 →
      ((a.write 0x4017 v).frame = a.frame ∧
       (a.write 0x4017 v).jitter = Jitter.Delay (a.global_cyc + 1) v ∧
       (a.write 0x4017 v).tick = a.tick ∧
       (a.write 0x4017 v).next_tick_cyc = a.next_tick_cyc ∧
       (a.write 0x4017 v).irq_requested = a.irq_requested)) ∧
    ((((APU.new 4096).run_to 101).1.write 0x4017 v).frame = 0 ∧
     ((((APU.new 4096).run_to 101).1.write 0x4017 v).run_to 101).1.frame = 0 ∧
     ((((APU.new 4096).run_to 101).1.write 0x4017 v).run_to 102).1.frame =
       Frame.from_bits_truncate v ∧
     ((((APU.new 4096).run_to 101).1.write 0x4017 v).run_to 102).1.tick = 0 ∧
     ((((APU.new 4096).run_to 101).1.write 0x4017 v).run_to 102).1.next_tick_cyc =
       102 + NTSC_TICK_LENGTH_TABLE (Frame.mode (Frame.from_bits_truncate v)) 0 ∧
     ((((APU.new 4096).run_to 101).1.write 0x4017 v).run_to 102).1.irq_requested = false ∧
     ((((APU.new 4096).run_to 101).1.write 0x4017 v).run_to 102).1.jitter = Jitter.None ∧
     ((((APU.new 4096).run_to 101).1.write 0x4017 v).run_to 102).1.global_cyc = 102) := by
  refine ⟨?_, ?_, ?_⟩
  · intro he
    cases hs : Frame.suppress_irq (Frame.from_bits_truncate v) <;>
      simp [APU.write, APU.set_4017, he, hs]
  · intro ho
    have hne : ¬ (a.global_cyc % 2 = 0) := by omega
    simp [APU.write, hne]
  · have hw : ((APU.new 4096).run_to 101).1.write 0x4017 v =
        { ((APU.new 4096).run_to 101).1 with jitter := Jitter.Delay 102 v } := rfl
    have key : ∀ b : APU, b.global_cyc = 101 → b.next_tick_cyc = 7459 →
        b.next_transfer_cyc = 4096 → b.last_frame_cyc = 0 → b.irq_requested = false →
        b.jitter = Jitter.Delay 102 v →
        ((b.run_to 102).1.frame = Frame.from_bits_truncate v ∧
         (b.run_to 102).1.tick = 0 ∧
         (b.run_to 102).1.next_tick_cyc =
           102 + NTSC_TICK_LENGTH_TABLE (Frame.mode (Frame.from_bits_truncate v)) 0 ∧
         (b.run_to 102).1.irq_requested = false ∧
         (b.run_to 102).1.jitter = Jitter.None ∧
         (b.run_to 102).1.global_cyc = 102) := by
      intro b hg hn ht hl hi hj
      cases hb : (v &&& 0xC0).testBit 7 <;>
        simp [APU.run_to, APU.run_loop, APU.play, APU.set_4017, APU.transfer,
          hg, hn, ht, hl, hi, hj, Frame.from_bits_truncate, Frame.mode,
          Frame.suppress_irq, hb, APU.do_tick, NTSC_TICK_LENGTH_TABLE, apply_ite]
    rw [hw]
    exact ⟨rfl, rfl, key _ rfl rfl rfl rfl rfl rfl⟩

/-- Witness for C4: the even-cycle immediate commit at v = 0x80 on a
fresh APU (global_cyc = 0). -/
theorem C4_witness :
    (0x80 : ℕ) < 256 ∧ (APU.new 4096).global_cyc % 2 = 0 ∧
    (((APU.new 4096).write 0x4017 0x80).frame = Frame.from_bits_truncate 0x80 ∧
     ((APU.new 4096).write 0x4017 0x80).tick = 0 ∧
     ((APU.new 4096).write 0x4017 0x80).next_tick_cyc =
       (APU.new 4096).global_cyc +
         NTSC_TICK_LENGTH_TABLE (Frame.mode (Frame.from_bits_truncate 0x80)) 0 ∧
     ((APU.new 4096).write 0x4017 0x80).irq_requested =
       (if Frame.suppress_irq (Frame.from_bits_truncate 0x80) then false
        else (APU.new 4096).irq_requested) ∧
     ((APU.new 4096).write 0x4017 0x80).jitter = (APU.new 4096).jitter) :=
  ⟨by decide, rfl, (C4_theorem (APU.new 4096) 0x80 (by decide)).1 rfl⟩

/-- Claim C5: the $4015 status byte is composed of the four length
counter active flags in bits 0..3 (pulse1, pulse2, triangle, noise) and
`irq_requested` — as observed after `run_to(cycle - 1)`, just before
the target cycle completes — in bit 6; the read clears the IRQ flag, so
after the un-suppressed mode-0 frame IRQ (cycle 29831) the first read
returns bit 6 set and an immediate second read returns bit 6 clear. -/
theorem C5_theorem (a : APU) (cycle : ℕ) (h : 1 ≤ cycle) :
    ((a.read_status cycle).map (fun r => r.2.1) = some (
      (if (a.run_to (cycle - 1)).1.pulse1.length.audible then 1 else 0) +
      2 * (if (a.run_to (cycle - 1)).1.pulse2.length.audible then 1 else 0) +
      4 * (if (a.run_to (cycle - 1)).1.triangle.length.audible then 1 else 0) +
      8 * (if (a.run_to (cycle - 1)).1.noise.length.audible then 1 else 0) +
      64 * (if (a.run_to (cycle - 1)).1.irq_requested then 1 else 0))) ∧
    ((a.read_status cycle).map (fun r => (r.2.1).testBit 6) =
      some ((a.run_to (cycle - 1)).1.irq_requested)) ∧
    (((APU.new 4096).read_status 29832).map (fun r => (r.1, (r.2.1).testBit 6)) =
      some (IrqInterrupt.IRQ, true)) ∧
    ((((APU.new 4096).read_status 29832).bind
        (fun r => r.2.2.read_status 29833)).map (fun r => (r.2.1).testBit 6) =
      some false) := by
  have hne : cycle ≠ 0 := by omega
  refine ⟨?_, ?_, rfl, rfl⟩ <;>
  · simp only [APU.read_status, if_neg hne, Option.map_some, Length.active]
    cases hb1 : (a.run_to (cycle - 1)).1.pulse1.length.audible <;>
      cases hb2 : (a.run_to (cycle - 1)).1.pulse2.length.audible <;>
        cases hb3 : (a.run_to (cycle - 1)).1.triangle.length.audible <;>
          cases hb4 : (a.run_to (cycle - 1)).1.noise.length.audible <;>
            cases hb5 : (a.run_to (cycle - 1)).1.irq_requested <;>
              simp [hb1, hb2, hb3, hb4, hb5] <;> decide

/-- Witness for C5 at the S3 read (cycle 29832 on a fresh APU). -/
theorem C5_witness :
    (1 : ℕ) ≤ 29832 ∧
    ((APU.new 4096).read_status 29832).map (fun r => (r.2.1).testBit 6) =
      some (((APU.new 4096).run_to (29832 - 1)).1.irq_requested) :=
  ⟨by decide, (C5_theorem (APU.new 4096) 29832 (by decide)).2.1⟩

/-- In an inert context every rendered background pixel reads zero
bytes end to end, so the pixel computation is total and yields the
zero Color. -/
theorem inert_pixel (p : PPU) (hI : Inert p) (x y : ℕ) (hx : x ≤ 255) (hy : y ≤ 239) :
    p.get_background_pixel x y = some (Color.from_bits_truncate 0) := by
  obtain ⟨hv, hpal, hchr, hctrl, hscroll⟩ := hI
  have hsx : p.reg.scroll_x = 0 := by simp [PPUReg.scroll_x, hscroll]
  have hsy : p.reg.scroll_y = 0 := by simp [PPUReg.scroll_y, hscroll]
  have hnt : p.reg.ppuctrl.nametable_addr = 0x2000 := by rw [hctrl]; rfl
  have hbt : p.reg.ppuctrl.background_table = 0 := by rw [hctrl]; rfl
  have hread_nt : p.ppu_mem.read (p.get_nametable_addr x y) = some 0 := by
    have h1 : p.get_nametable_addr x y = 0x2000 + (y / 8) * 32 + x / 8 := by
      simp [PPU.get_nametable_addr, hnt]
    have hlo : ¬ (0x2000 + (y / 8) * 32 + x / 8 ≤ 0x1FFF) := by omega
    have hhi : 0x2000 + (y / 8) * 32 + x / 8 ≤ 0x3EFF := by omega
    rw [h1]
    simp [PPUMemory.read, hlo, hhi, hv]
  have hread_at : p.ppu_mem.read (p.get_attribute_addr x y) = some 0 := by
    have h1 : p.get_attribute_addr x y = 0x2000 + 0x03C0 + (y / 32) * 8 + x / 32 := by
      simp [PPU.get_attribute_addr, hnt]
    have hlo : ¬ (0x2000 + 0x03C0 + (y / 32) * 8 + x / 32 ≤ 0x1FFF) := by omega
    have hhi : 0x2000 + 0x03C0 + (y / 32) * 8 + x / 32 ≤ 0x3EFF := by omega
    rw [h1]
    simp [PPUMemory.read, hlo, hhi, hv]
  have hread_pat : ∀ plane : ℕ, plane ≤ 8 →
      p.ppu_mem.read (get_tile_addr 0 plane (y &&& 0x07) 0) = some 0 := by
    intro plane hpl
    have hfy : y &&& 0x07 < 16 :=
      lt_of_le_of_lt (Nat.and_le_right) (by norm_num)
    have haddr : get_tile_addr 0 plane (y &&& 0x07) 0 < 16 := by
      have h0 : (0 : ℕ) <<< 4 = 0 := rfl
      simp only [get_tile_addr, h0, Nat.or_zero]
      exact @Nat.or_lt_two_pow _ _ 4 hfy (by omega)
    have hle : get_tile_addr 0 plane (y &&& 0x07) 0 ≤ 0x1FFF := by omega
    simp [PPUMemory.read, hle, Cart.chr_read, hchr]
  have hread_pal : p.ppu_mem.read (0x3F00 + ((0 <<< 2) ||| 0)) = some 0 := by
    have h1 : (0x3F00 : ℕ) + ((0 <<< 2) ||| 0) = 0x3F00 := rfl
    rw [h1]
    have h2 : ¬ ((0x3F00 : ℕ) ≤ 0x1FFF) := by omega
    have h3 : ¬ ((0x3F00 : ℕ) ≤ 0x3EFF) := by omega
    have h4 : (0x3F00 : ℕ) ≤ 0x3FFF := by omega
    simp [PPUMemory.read, h2, h3, h4, hpal, Color.from_bits_truncate]
  have hcid : p.get_color_id (x + 0) (y + 0) = some 0 := by
    simp only [Nat.add_zero]
    rw [PPU.get_color_id]
    rw [hread_nt]
    simp only [Option.bind_eq_bind, Option.some_bind, hbt]
    rw [PPU.read_tile_pattern]
    rw [hread_pat 0 (by omega), hread_pat 8 (by omega)]
    simp [get_color_in_pattern]
  have hpid : p.get_palette_id (x + 0) (y + 0) = some 0 := by
    simp only [Nat.add_zero]
    rw [PPU.get_palette_id]
    rw [hread_at]
    simp [get_palette_from_attribute]
  rw [PPU.get_background_pixel]
  rw [hsx, hsy]
  simp only [Option.bind_eq_bind]
  rw [hcid]
  simp only [Option.some_bind]
  rw [hpid]
  simp only [Option.some_bind]
  rw [PPU.read_palette]
  rw [hread_pal]
  simp

/-- In an inert context a visible-scanline dot is total and changes
only the framebuffer. -/
theorem inert_visible (p : PPU) (h : Inert p) (c s : ℕ) (hs : s ≤ 239) :
    ∃ buf, p.visible_scanline c s = some { p with screen_buffer := buf } := by
  by_cases hc : 256 ≤ c
  · exact ⟨p.screen_buffer, by simp [PPU.visible_scanline, hc]⟩
  · have hx : c ≤ 255 := by omega
    have hpix := inert_pixel p h c s hx hs
    refine ⟨upd p.screen_buffer (s * 256 + c) (Color.from_bits_truncate 0), ?_⟩
    simp [PPU.visible_scanline, hc, hpix]

/-- `tick_cycle` commutes with the core projection. -/
theorem core_tick (p : PPU) : (p.tick_cycle).core = p.core.tick_cycle := by
  simp only [PPU.tick_cycle, Core.tick_cycle, PPU.core]
  split_ifs <;> rfl

/-- `tick_cycle` preserves the inert context. -/
theorem inert_tick (p : PPU) (h : Inert p) : Inert p.tick_cycle := by
  obtain ⟨h1, h2, h3, h4, h5⟩ := h
  unfold PPU.tick_cycle
  dsimp only
  split_ifs <;> exact ⟨h1, h2, h3, h4, h5⟩

/-- `run_cycle` in an inert context is total, changes the core exactly
as `Core.run_cycle`, returns the core's NMI bit, and stays inert. -/
theorem inert_run_cycle (p : PPU) (h : Inert p) :
    ∃ q, p.run_cycle = some (q, (p.core.run_cycle).2) ∧
      q.core = (p.core.run_cycle).1 ∧ Inert q := by
  by_cases h1 : p.sl = -1
  · exact ⟨p, by simp [PPU.run_cycle, Core.run_cycle, PPU.core, h1],
      by simp [Core.run_cycle, PPU.core, h1], h⟩
  · by_cases h2 : 0 ≤ p.sl ∧ p.sl ≤ 239
    · have hs : p.sl.toNat ≤ 239 := by omega
      obtain ⟨buf, hbuf⟩ := inert_visible p h p.cyc p.sl.toNat hs
      obtain ⟨hI1, hI2, hI3, hI4, hI5⟩ := h
      refine ⟨{ p with screen_buffer := buf }, ?_, ?_, ⟨hI1, hI2, hI3, hI4, hI5⟩⟩
      · simp [PPU.run_cycle, Core.run_cycle, PPU.core, h1, h2, hbuf]
      · simp [Core.run_cycle, PPU.core, h1, h2]
    · by_cases h3 : p.sl = 240
      · exact ⟨p, by simp [PPU.run_cycle, Core.run_cycle, PPU.core, h1, h2, h3],
          by simp [Core.run_cycle, PPU.core, h1, h2, h3], h⟩
      · by_cases h4 : p.cyc = 1 ∧ p.sl = 241
        · obtain ⟨hI1, hI2, hI3, hI4, hI5⟩ := h
          by_cases h5 : 0 < p.frame
          · refine ⟨{ p with
                        screen_draws := p.screen_draws + 1
                        reg := { p.reg with ppustat := p.reg.ppustat ||| 0x80 } },
              ?_, ?_, ⟨hI1, hI2, hI3, hI4, hI5⟩⟩
            · simp [PPU.run_cycle, Core.run_cycle, PPU.core, PPU.start_vblank,
                h1, h2, h3, h4, h5]
            · simp [Core.run_cycle, PPU.core, h1, h2, h3, h4, h5]
          · refine ⟨{ p with screen_draws := p.screen_draws + 1 }, ?_, ?_,
              ⟨hI1, hI2, hI3, hI4, hI5⟩⟩
            · simp [PPU.run_cycle, Core.run_cycle, PPU.core, PPU.start_vblank,
                h1, h2, h3, h4, h5]
            · simp [Core.run_cycle, PPU.core, h1, h2, h3, h4, h5]
        · exact ⟨p, by simp [PPU.run_cycle, Core.run_cycle, PPU.core, h1, h2, h3, h4],
            by simp [Core.run_cycle, PPU.core, h1, h2, h3, h4], h⟩

/-- The full PPU loop simulates the core loop in an inert context:
same NMI accumulation, core-projected state, inertness preserved. -/
theorem inert_sim : ∀ (fuel : ℕ) (p : PPU) (tgt : ℕ) (acc : Bool), Inert p →
    ∃ q, PPU.run_loop fuel p tgt acc =
        some (q, (Core.run_loop fuel p.core tgt acc).2) ∧
      q.core = (Core.run_loop fuel p.core tgt acc).1 ∧ Inert q := by
  intro fuel
  induction fuel with
  | zero => exact fun p tgt acc h => ⟨p, rfl, rfl, h⟩
  | succ f ih =>
    intro p tgt acc h
    have hPPU : PPU.run_loop (f + 1) p tgt acc =
        (if p.global_cyc < tgt then
          match (p.tick_cycle).run_cycle with
          | none => none
          | some r => PPU.run_loop f r.1 tgt (acc || r.2)
         else some (p, acc)) := rfl
    have hCore : Core.run_loop (f + 1) p.core tgt acc =
        (if p.core.global_cyc < tgt then
          Core.run_loop f (p.core.tick_cycle.run_cycle).1 tgt
            (acc || (p.core.tick_cycle.run_cycle).2)
         else (p.core, acc)) := rfl
    by_cases hlt : p.global_cyc < tgt
    · have hltc : p.core.global_cyc < tgt := hlt
      have htick := inert_tick p h
      obtain ⟨q, hq, hqc, hqI⟩ := inert_run_cycle p.tick_cycle htick
      rw [core_tick] at hq hqc
      obtain ⟨r, hr, hrc, hrI⟩ :=
        ih q tgt (acc || (p.core.tick_cycle.run_cycle).2) hqI
      rw [hqc] at hr hrc
      refine ⟨r, ?_, ?_, hrI⟩
      · rw [hPPU, if_pos hlt, hq, hCore, if_pos hltc]
        exact hr
      · rw [hCore, if_pos hltc]
        exact hrc
    · have hltc : ¬ p.core.global_cyc < tgt := hlt
      exact ⟨p, by rw [hPPU, if_neg hlt, hCore, if_neg hltc],
        by rw [hCore, if_neg hltc], h⟩

/-- One `tick_cycle` takes the closed-form S2 core at dot n to the
clock of dot n + 1 (status fields untouched). -/
theorem tick_g (n : ℕ) : (c2g n).tick_cycle = c2t n := by
  unfold c2g c2t Core.tick_cycle
  dsimp only
  split_ifs <;> simp only [Core.mk.injEq] <;> and_intros <;>
    first
      | trivial
      | omega

/-- One `run_cycle` dispatch takes the post-tick S2 core to the
closed-form core at dot n + 1 and returns the dot's NMI bit. -/
theorem run_g (n : ℕ) : (c2t n).run_cycle = (c2g (n + 1), c2b (n + 1)) := by
  unfold c2t c2g c2b Core.run_cycle
  dsimp only
  split_ifs <;>
    simp only [Prod.mk.injEq, Core.mk.injEq] <;>
    and_intros <;>
    first
      | trivial
      | omega
      | (rw [eq_comm]
         simp only [decide_eq_true_eq, decide_eq_false_iff_not]
         omega)

/-- Merging the accumulated NMI flag with the next dot's bit. -/
theorem c2hit_succ (n : ℕ) : (c2hit n || c2b (n + 1)) = c2hit (n + 1) := by
  by_cases h1 : (89343 : ℕ) ≤ n
  · have h2 : (89343 : ℕ) ≤ n + 1 := by omega
    simp [c2hit, c2b, h1, h2]
  · by_cases h3 : (89343 : ℕ) ≤ n + 1
    · have h4 : (n + 1) % 89342 = 1 ∧ 89343 ≤ n + 1 := by omega
      simp [c2hit, c2b, h1, h3, h4]
    · have h4 : ¬ ((n + 1) % 89342 = 1 ∧ 89343 ≤ n + 1) := by omega
      simp [c2hit, c2b, h1, h3, h4]

/-- One full dot of the S2 core run in closed form. -/
theorem core_step_g (n : ℕ) :
    (c2g n).tick_cycle.run_cycle = (c2g (n + 1), c2b (n + 1)) := by
  rw [tick_g, run_g]

/-- The whole S2 core run in closed form: k dots from the closed-form
state at dot n reach the closed-form state at dot n + k, with the NMI
flag accumulated accordingly. -/
theorem core_run_g : ∀ (k n : ℕ),
    Core.run_loop k (c2g n) (n + k) (c2hit n) = (c2g (n + k), c2hit (n + k)) := by
  intro k
  induction k with
  | zero => intro n; rfl
  | succ f ih =>
    intro n
    have hlt : (c2g n).global_cyc < n + (f + 1) := by
      simp only [c2g]
      omega
    have hunf : Core.run_loop (f + 1) (c2g n) (n + (f + 1)) (c2hit n) =
        (if (c2g n).global_cyc < n + (f + 1) then
          Core.run_loop f ((c2g n).tick_cycle.run_cycle).1 (n + (f + 1))
            (c2hit n || ((c2g n).tick_cycle.run_cycle).2)
         else ((c2g n), c2hit n)) := rfl
    rw [hunf, if_pos hlt]
    simp only [core_step_g n]
    rw [c2hit_succ n, show n + (f + 1) = (n + 1) + f from by omega]
    exact ih (n + 1)

/-- Claim C2 (counterexample): from a newly constructed PPU, after
`write(0x2000, 0x80)`, `run_to(27394)` returns Continue, not NMI.  The
construction starts at (cyc 0, scanline 241, frame 0), so the first
vblank start with frame > 0 falls at dot 89343 = 3 * 29781, well after
dot 3 * 27394 = 82182. -/
theorem C2_counterexample :
    (((PPU.new cart0).write 0x2000 0x80).bind (fun p => p.run_to 27394)).map
      (fun r => r.2) = some StepResult.Continue := by
  have hI : Inert c2p0 := ⟨fun _ => rfl, fun _ => rfl, fun _ => rfl, rfl, rfl⟩
  obtain ⟨q, hq, _, _⟩ := inert_sim 82182 c2p0 82182 false hI
  rw [show c2p0.core = c2g 0 from rfl] at hq
  have hrun := core_run_g 82182 0
  rw [Nat.zero_add] at hrun
  rw [show c2hit 0 = false from rfl] at hrun
  rw [hrun] at hq
  have hmap : c2p0.run_to 27394 = some (q, StepResult.Continue) := by
    rw [PPU.run_to]
    rw [show (3 : ℕ) * 27394 = 82182 from rfl,
        show (82182 : ℕ) - c2p0.global_cyc = 82182 from rfl, hq]
    rfl
  rw [show (PPU.new cart0).write 0x2000 0x80 = some c2p0 from rfl,
      Option.some_bind, hmap]
  rfl

/-- Claim C2 (amended): from a newly constructed PPU, after
`write(0x2000, 0x80)`, the call `run_to(29781)` returns NMI (dot
3 * 29781 = 89343 is the vblank-start dot (cyc 1, scanline 241) of
frame 1); the run leaves VBLANK set in ppustat and has pushed the
framebuffer twice (once at the skipped frame-0 vblank, once at frame
1); and in general, at every dot with (cyc, sl) = (1, 241) reached
with frame > 0, VBLANK is set, the framebuffer is pushed, and the dot
reports an NMI iff `ppuctrl.generate_vblank_nmi()`. -/
theorem C2_amended :
    ((((PPU.new cart0).write 0x2000 0x80).bind (fun p => p.run_to 29781)).map
        (fun r => r.2) = some StepResult.NMI ∧
     (((PPU.new cart0).write 0x2000 0x80).bind (fun p => p.run_to 29781)).map
        (fun r => r.1.reg.ppustat.testBit 7) = some true ∧
     (((PPU.new cart0).write 0x2000 0x80).bind (fun p => p.run_to 29781)).map
        (fun r => r.1.screen_draws) = some 2) ∧
    (∀ p : PPU, p.cyc = 1 → p.sl = 241 → 0 < p.frame →
      (p.run_cycle).map
          (fun r => (r.1.reg.ppustat.testBit 7, r.1.screen_draws, r.2)) =
        some (true, p.screen_draws + 1, p.reg.ppuctrl.generate_vblank_nmi)) := by
  constructor
  · have hI : Inert c2p0 := ⟨fun _ => rfl, fun _ => rfl, fun _ => rfl, rfl, rfl⟩
    obtain ⟨q, hq, hqc, _⟩ := inert_sim 89343 c2p0 89343 false hI
    rw [show c2p0.core = c2g 0 from rfl] at hq hqc
    have hrun := core_run_g 89343 0
    rw [Nat.zero_add] at hrun
    rw [show c2hit 0 = false from rfl] at hrun
    rw [hrun] at hq hqc
    have hstat : q.reg.ppustat = 0x80 := by
      have := congrArg Core.stat hqc
      simpa [PPU.core] using this
    have hdraws : q.screen_draws = 2 := by
      have := congrArg Core.draws hqc
      simpa [PPU.core] using this
    have hmap : c2p0.run_to 29781 = some (q, StepResult.NMI) := by
      rw [PPU.run_to]
      rw [show (3 : ℕ) * 29781 = 89343 from rfl,
          show (89343 : ℕ) - c2p0.global_cyc = 89343 from rfl, hq]
      rfl
    refine ⟨?_, ?_, ?_⟩
    · rw [show (PPU.new cart0).write 0x2000 0x80 = some c2p0 from rfl,
          Option.some_bind, hmap]
      rfl
    · rw [show (PPU.new cart0).write 0x2000 0x80 = some c2p0 from rfl,
          Option.some_bind, hmap, Option.map_some']
      show some (q.reg.ppustat.testBit 7) = some true
      rw [hstat]
      rfl
    · rw [show (PPU.new cart0).write 0x2000 0x80 = some c2p0 from rfl,
          Option.some_bind, hmap, Option.map_some']
      show some q.screen_draws = some 2
      rw [hdraws]
  · intro p h1 h2 h3
    have hne1 : ¬ (p.sl = -1) := by rw [h2]; decide
    have hne2 : ¬ (0 ≤ p.sl ∧ p.sl ≤ 239) := by rw [h2]; decide
    have hne3 : ¬ (p.sl = 240) := by rw [h2]; decide
    simp [PPU.run_cycle, PPU.start_vblank, h1, h2, h3, hne1, hne2, hne3,
      Nat.testBit_or, show (0x80 : ℕ).testBit 7 = true from rfl]

/-- Witness for C2's per-dot vblank property at the frame-1 vblank
start dot. -/
theorem C2_witness :
    c2vb.cyc = 1 ∧ c2vb.sl = 241 ∧ 0 < c2vb.frame ∧
    (c2vb.run_cycle).map
        (fun r => (r.1.reg.ppustat.testBit 7, r.1.screen_draws, r.2)) =
      some (true, c2vb.screen_draws + 1, c2vb.reg.ppuctrl.generate_vblank_nmi) :=
  ⟨rfl, rfl, by decide, C2_amended.2 c2vb rfl rfl (by decide)⟩

end Corrosion

